import Mathlib

/-!
Verification development for the gig-search-automation repository.

The definitions below are a shallow embedding of the Python sources:
`main.py` (relevance filter, main loop), `job_scraper.py` (source adapters,
description extraction, aggregator), `selenium_scraper.py` (selenium
description extraction, driver lifecycle), `resume_parser.py` (keyword
extraction), `db_manager.py` (store insert) and `config.py` (vocabularies).

Python strings are modelled as Lean `String`; Python's substring test
`a in b` is modelled by `strContains`, `str.lower()` by `pyLower`, slicing
`s[:n]` by `pyTake`, and dictionary lookups with defaults by `Option`
fields with `getD`.  Clock reads (`datetime.date.today()`,
`datetime.datetime.now()`) are passed in as explicit parameters.
-/

/-- Python list-prefix test on characters (used to build substring search). -/
def listStartsWith : List Char → List Char → Bool
  | [], _ => true
  | _ :: _, [] => false
  | a :: as, b :: bs => a == b && listStartsWith as bs

/-- Substring occurrence on character lists: Python's `needle in haystack`. -/
def substrOf (needle : List Char) : List Char → Bool
  | [] => needle.isEmpty
  | c :: cs => listStartsWith needle (c :: cs) || substrOf needle cs

/-- Python's `needle in haystack` on strings. -/
def strContains (haystack needle : String) : Bool :=
  substrOf needle.toList haystack.toList

/-- Python's `str.lower()` (ASCII case folding, as used by the sources). -/
def pyLower (s : String) : String :=
  String.mk (s.toList.map Char.toLower)

/-- Python's slice `s[:n]`. -/
def pyTake (n : Nat) (s : String) : String :=
  String.mk (s.toList.take n)

/-! ## Data model

`JobData` embeds the job dictionaries produced by the source adapters and
consumed by `filter_and_process_job` in `main.py`.  Every field is an
`Option String` because the filter reads them with `job_data.get(key, "")`
(respectively `job_data.get("url")` with no default). -/

structure JobData where
  title : Option String
  company : Option String
  location : Option String
  url : Option String
  description : Option String
  date_posted : Option String
deriving DecidableEq

/-- The keyword dictionary returned by `parse_resume_keywords` in
`resume_parser.py`. -/
structure ResumeKeywords where
  skills : List String
  roles : List String
  preferences : List String
deriving DecidableEq

/-- The dictionary returned by `filter_and_process_job` on acceptance
(`main.py`, lines 142-153). -/
structure ScoredJob where
  title : Option String
  company : Option String
  location : Option String
  url : Option String
  description : String
  date_posted : String
  date_found : String
  relevance_score : Nat
deriving DecidableEq

/-! ## Relevance filter (`main.py`, `filter_and_process_job`, lines 76-154) -/

/-- `title = job_data.get("title", "").lower()`. -/
def titleL (j : JobData) : String := pyLower (j.title.getD "")

/-- `company = job_data.get("company", "").lower()`. -/
def companyL (j : JobData) : String := pyLower (j.company.getD "")

/-- `location = job_data.get("location", "").lower()`. -/
def locationL (j : JobData) : String := pyLower (j.location.getD "")

/-- `description = job_data.get("description", "").lower()`. -/
def descL (j : JobData) : String := pyLower (j.description.getD "")

/-- `is_remote` from `main.py` lines 88-93. -/
def is_remote (j : JobData) : Bool :=
  strContains (locationL j) "remote"
    || strContains (titleL j) "work from home"
    || strContains (locationL j) "worldwide"
    || strContains (locationL j) "home office"

/-- `is_international_company` from `main.py` lines 96-104. -/
def is_international_company (j : JobData) : Bool :=
  ((["global", "international", "inc.", "corp."] : List String).any fun k =>
      strContains (companyL j) k)
    || strContains (descL j) "global"
    || strContains (descL j) "international"
    || strContains (descL j) "worldwide"

/-- `is_ngo` from `main.py` lines 105-115. -/
def is_ngo (j : JobData) : Bool :=
  (["ngo", "non-profit", "foundation", "charity", "united nations", "wfp"] :
      List String).any fun k =>
    strContains (companyL j) k || strContains (descL j) k

/-- `role_match` from `main.py` lines 118-121. -/
def role_match (kw : ResumeKeywords) (j : JobData) : Bool :=
  kw.roles.any fun role =>
    strContains (titleL j) (pyLower role) || strContains (descL j) (pyLower role)

/-- `skills_match_count` from `main.py` lines 124-128. -/
def skills_match_count (kw : ResumeKeywords) (j : JobData) : Nat :=
  (kw.skills.filter fun skill =>
      strContains (descL j) (pyLower skill)
        || strContains (titleL j) (pyLower skill)).length

/-- `is_relevant` from `main.py` lines 132-134; `thr` is the configured
`MIN_SKILL_MATCHES`. -/
def is_relevant (thr : Nat) (kw : ResumeKeywords) (j : JobData) : Bool :=
  (is_remote j && role_match kw j && decide (skills_match_count kw j ≥ thr))
    && (is_international_company j || is_ngo j)

/-- `filter_and_process_job` from `main.py` lines 76-154.  `now` is the
value of `datetime.datetime.now().isoformat()` and `today` the value of
`datetime.date.today().isoformat()` at call time. -/
def filter_and_process_job (now today : String) (thr : Nat)
    (j : JobData) (kw : ResumeKeywords) : Option ScoredJob :=
  if is_relevant thr kw j then
    some
      { title := j.title
        company := j.company
        location := j.location
        url := j.url
        description := descL j
        date_posted := j.date_posted.getD today
        date_found := now
        relevance_score :=
          skills_match_count kw j + (if is_ngo j then 2 else 0)
            + (if is_international_company j then 1 else 0) }
  else none

/-! ## Spec-side acceptance predicate (claim C1's wording)

These definitions follow the words of the specification sentence
"Accept ⇔ `is_remote AND role_match AND has_sufficient_skills AND
(is_international OR is_ngo)`" together with the claim's expansion of each
predicate, to be compared with the code-side `is_relevant` above. -/

/-- Spec wording: 'remote', 'worldwide' or 'home office' occurs in
location, or 'work from home' in title. -/
def spec_is_remote (j : JobData) : Bool :=
  strContains (locationL j) "remote"
    || strContains (locationL j) "worldwide"
    || strContains (locationL j) "home office"
    || strContains (titleL j) "work from home"

/-- Spec wording: company contains 'global', 'international', 'inc.' or
'corp.', or description contains 'global', 'international' or 'worldwide'. -/
def spec_is_international (j : JobData) : Bool :=
  strContains (companyL j) "global"
    || strContains (companyL j) "international"
    || strContains (companyL j) "inc."
    || strContains (companyL j) "corp."
    || strContains (descL j) "global"
    || strContains (descL j) "international"
    || strContains (descL j) "worldwide"

/-- Spec wording: company or description contains one of 'ngo',
'non-profit', 'foundation', 'charity', 'united nations', 'wfp'. -/
def spec_is_ngo (j : JobData) : Bool :=
  (["ngo", "non-profit", "foundation", "charity", "united nations", "wfp"] :
      List String).any fun k =>
    strContains (companyL j) k || strContains (descL j) k

/-- Spec wording: some resume role term occurs in title or description. -/
def spec_role_match (kw : ResumeKeywords) (j : JobData) : Bool :=
  kw.roles.any fun role =>
    strContains (titleL j) (pyLower role) || strContains (descL j) (pyLower role)

/-- Spec wording: the number of distinct resume skill terms occurring in
title or description. -/
def spec_distinct_skill_count (kw : ResumeKeywords) (j : JobData) : Nat :=
  ((kw.skills.filter fun skill =>
      strContains (titleL j) (pyLower skill)
        || strContains (descL j) (pyLower skill)).dedup).length

/-- Spec wording: accept iff remote, role match, at least `thr` distinct
matching skills, and international or NGO. -/
def spec_accepts (thr : Nat) (kw : ResumeKeywords) (j : JobData) : Bool :=
  spec_is_remote j && spec_role_match kw j
    && decide (spec_distinct_skill_count kw j ≥ thr)
    && (spec_is_international j || spec_is_ngo j)

/-! ## Fixed example records (from the specification's testable properties) -/

/-- The keyword set of the spec's fixed example. -/
def exKw : ResumeKeywords :=
  { skills := ["python", "django", "aws"]
    roles := ["backend developer"]
    preferences := ["remote", "international", "ngo", "non-profit", "worldwide"] }

/-- The spec's fixed accept example. -/
def exJob : JobData :=
  { title := some "Backend Developer"
    company := some "Acme Global Inc."
    location := some "Remote - Worldwide"
    url := some "https://example.com/job/1"
    description := some "python django aws api design"
    date_posted := some "2024-01-01" }

/-- The spec's fixed reject example: same but location "New York, NY". -/
def exJobNY : JobData :=
  { exJob with location := some "New York, NY" }

/-- A job that is NGO but not international (for the score-5 example). -/
def exNgoJob : JobData :=
  { title := some "Backend Developer"
    company := some "Save The Children Charity"
    location := some "Remote"
    url := some "https://example.com/job/2"
    description := some "python django aws"
    date_posted := some "2024-01-02" }

/-- A job that is international but not NGO (for the score-4 example).
Note "django" must stay out of company and description, since "ngo" is a
substring of "django" and would make `is_ngo` true; it sits in the title,
which `is_ngo` does not inspect. -/
def exIntlJob : JobData :=
  { title := some "Django Backend Developer"
    company := some "Acme Inc."
    location := some "Remote"
    url := some "https://example.com/job/3"
    description := some "python aws api design"
    date_posted := some "2024-01-02" }

/-! ## Description extraction (`job_scraper.py` lines 74-125,
`selenium_scraper.py` lines 57-100)

The network fetch and HTML parsing are impure; the page is abstracted to
the text pieces the functions read from it.  `RequestsPage.siteSpecific`
is the text of the first node matching the site-specific selectors,
`generic` the stripped texts of the class-heuristic matches, `broad` the
stripped texts of the broad `div`/`p`/`li` sweep. -/

structure RequestsPage where
  siteSpecific : Option String
  generic : List String
  broad : List String

/-- `fetch_full_description_requests` from `job_scraper.py` lines 74-125.
`outcome = none` models a raised `RequestException` or parse exception. -/
def fetch_full_description_requests (job_url : String)
    (outcome : Option RequestsPage) : String :=
  if job_url = "" || job_url = "N/A" then "No URL provided."
  else
    match outcome with
    | none => "N/A (Could not fetch full description via requests)"
    | some page =>
      match page.siteSpecific with
      | some t => pyTake 5000 t
      | none =>
        let elems := if page.generic ≠ [] then page.generic else page.broad
        pyTake 5000 (String.intercalate " " (elems.filter fun t => t ≠ ""))

/-- The rendered page as read by `fetch_full_description_selenium` in
`selenium_scraper.py`: `descElems` are the `.text.strip()` values of the
site-specific selector matches, `mainContent` the optional fallback
container text, `bodyText` the whole-page fallback. -/
structure SeleniumPage where
  descElems : List String
  mainContent : Option String
  bodyText : String

/-- `fetch_full_description_selenium` from `selenium_scraper.py` lines
57-100.  `outcome = none` models a `TimeoutException`/`WebDriverException`
or other exception while rendering. -/
def fetch_full_description_selenium (hasDriver : Bool) (job_url : String)
    (outcome : Option SeleniumPage) : String :=
  if !hasDriver then "No Selenium driver available."
  else if job_url = "" || job_url = "N/A" then "No URL provided."
  else
    match outcome with
    | none => "N/A (Could not fetch full description via Selenium)"
    | some page =>
      let text :=
        if page.descElems ≠ [] then String.intercalate " " page.descElems
        else
          match page.mainContent with
          | some t => t
          | none => page.bodyText
      pyTake 5000 text

/-! ## Aggregator (`job_scraper.py`, `scrape_all_jobs`, lines 509-542)

Each adapter call is abstracted as its outcome: `Except.ok jobs` when the
adapter returns a list, `Except.error e` when an exception escapes it.
`scrape_all_jobs` itself contains no exception handler, so in the
exception monad a failing adapter's error propagates. -/

def scrape_all_jobs (unjobs careers wellfound linkedin : Except String (List JobData)) :
    Except String (List JobData) := do
  let unjobs_jobs ← unjobs
  let careers_jobs ← careers
  let wellfound_jobs ← wellfound
  let linkedin_jobs ← linkedin
  return unjobs_jobs ++ careers_jobs ++ wellfound_jobs ++ linkedin_jobs

/-! ## Main-loop dedup (`main.py` lines 200-211) and store insert
(`db_manager.py`, `save_job_listing`, lines 29-55) -/

/-- The test `job_data.get("url") in existing_job_urls` from `main.py`
line 204 (`existing_job_urls` holds the strings returned by
`get_all_job_urls`, so a `None` url is never a member). -/
def urlSeen (existing : List String) (j : JobData) : Bool :=
  match j.url with
  | some u => existing.contains u
  | none => false

/-- The filtering loop of `main.py` lines 202-214: returns the jobs that
reach `filter_and_process_job` and the accepted records passed to
`save_job_listing`, in processing order. -/
def run_filter_loop (now today : String) (thr : Nat) (kw : ResumeKeywords)
    (existing : List String) : List JobData → List JobData × List ScoredJob
  | [] => ([], [])
  | j :: rest =>
    let acc := run_filter_loop now today thr kw existing rest
    if urlSeen existing j then acc
    else
      match filter_and_process_job now today thr j kw with
      | some r => (j :: acc.1, r :: acc.2)
      | none => (j :: acc.1, acc.2)

/-- `save_job_listing` from `db_manager.py` lines 29-55.  The store is
abstracted as the list of `url` column values; the `url` column is
`UNIQUE`, an insert of a duplicate raises `sqlite3.IntegrityError`, which
the function catches and turns into `False` (SQLite treats NULLs as
distinct under UNIQUE, so a `none` url always inserts).  Returns the
success flag and the updated store. -/
def save_job_listing (db : List (Option String)) (job : ScoredJob) :
    Bool × List (Option String) :=
  match job.url with
  | some u => if db.contains (some u) then (false, db) else (true, db ++ [some u])
  | none => (true, db ++ [none])

/-! ## Date normalization (`job_scraper.py` lines 330-360 and 457-480)

`strptime` and the two regexes are embedded over character lists; the
calendar backend (`datetime.date`, `timedelta`) is kept symbolic: a
normalized date is either "current date minus n days" (`todayMinus 0` is
`datetime.date.today()` itself) or an absolute date. -/

inductive NormalizedDate where
  | todayMinus (days : Nat)
  | onDate (y m d : Nat)
deriving DecidableEq

/-- `\s` for the ASCII whitespace the scraped strings contain. -/
def isWS (c : Char) : Bool :=
  c = ' ' || c = '\t' || c = '\n' || c = '\r'

/-- `\w` (ASCII part, as in the scraped strings). -/
def isWordChar (c : Char) : Bool :=
  c.isAlphanum || c = '_'

/-- Numeric value of a digit run. -/
def digitsToNat (l : List Char) : Nat :=
  l.foldl (fun a c => a * 10 + (c.toNat - 48)) 0

/-- Case-insensitive literal match: consume `pat` from the front of `s`,
returning the rest. -/
def stripCI : List Char → List Char → Option (List Char)
  | [], s => some s
  | _ :: _, [] => none
  | p :: ps, c :: cs => if p.toLower = c.toLower then stripCI ps cs else none

/-- One attempt of `re.search(r"(\d+)\s+days?\s+ago", s, re.IGNORECASE)`
anchored at the current position. -/
def tryDaysAgoAt (s : List Char) : Option Nat :=
  let ds := s.takeWhile Char.isDigit
  if ds = [] then none
  else
    let r1 := (s.drop ds.length)
    let ws1 := r1.takeWhile isWS
    if ws1 = [] then none
    else
      match stripCI ("day".toList) (r1.drop ws1.length) with
      | none => none
      | some r3 =>
        let r4 := match stripCI ("s".toList) r3 with
                  | some x => x
                  | none => r3
        let ws2 := r4.takeWhile isWS
        if ws2 = [] then none
        else
          match stripCI ("ago".toList) (r4.drop ws2.length) with
          | some _ => some (digitsToNat ds)
          | none => none

/-- `re.search(r"(\d+)\s+days?\s+ago", s, re.IGNORECASE)`: first matching
position wins. -/
def searchDaysAgo : List Char → Option Nat
  | [] => none
  | c :: cs =>
    match tryDaysAgoAt (c :: cs) with
    | some n => some n
    | none => searchDaysAgo cs

/-- The month vocabulary of `strptime`'s `%B` directive (matched
case-insensitively). -/
def monthNames : List String :=
  ["january", "february", "march", "april", "may", "june", "july",
   "august", "september", "october", "november", "december"]

/-- `%B`: the token must be exactly a month name, case-insensitively. -/
def parseMonth (w : List Char) : Option Nat :=
  let i := monthNames.indexOf (pyLower (String.mk w))
  if i < 12 then some (i + 1) else none

/-- `%d`: one or two digits with value 1..31 (CPython's day regex). -/
def parseDay (w : List Char) : Option Nat :=
  if w ≠ [] && w.length ≤ 2 && w.all Char.isDigit
      && decide (1 ≤ digitsToNat w) && decide (digitsToNat w ≤ 31) then
    some (digitsToNat w)
  else none

/-- `%Y`: exactly four digits (CPython's year regex). -/
def parseYear (w : List Char) : Option Nat :=
  if w.length = 4 && w.all Char.isDigit then some (digitsToNat w) else none

/-- Gregorian leap-year rule, as validated by `datetime.date`. -/
def isLeap (y : Nat) : Bool :=
  (y % 4 = 0 && y % 100 ≠ 0) || y % 400 = 0

/-- Days in a month, as validated by `datetime.date`. -/
def daysInMonth (y m : Nat) : Nat :=
  if m = 2 then (if isLeap y then 29 else 28)
  else if m = 4 || m = 6 || m = 9 || m = 11 then 30
  else 31

/-- Split a character list on whitespace runs. -/
def splitWSAux : List Char → List Char → List (List Char)
  | [], cur => if cur = [] then [] else [cur.reverse]
  | c :: cs, cur =>
    if isWS c then
      if cur = [] then splitWSAux cs [] else cur.reverse :: splitWSAux cs []
    else splitWSAux cs (c :: cur)

def splitWS (s : List Char) : List (List Char) := splitWSAux s []

/-- `strptime` requires the whole string to be consumed: with formats of
shape `tok \s+ tok \s+ tok`, leading or trailing whitespace is a parse
failure. -/
def noEdgeWS : List Char → Bool
  | [] => false
  | c :: cs =>
    !isWS c &&
      (match (c :: cs).getLast? with
       | some d => !isWS d
       | none => false)

/-- Common core of the two `strptime` calls: check edges, split into
exactly three tokens, and validate the resulting date the way
`datetime.date` does (year ≥ 1, day within the month). -/
def strptimeThree (s : List Char)
    (build : List Char → List Char → List Char → Option (Nat × Nat × Nat)) :
    Option (Nat × Nat × Nat) :=
  if noEdgeWS s then
    match splitWS s with
    | [t1, t2, t3] =>
      match build t1 t2 t3 with
      | some (y, m, d) =>
        if 1 ≤ y && d ≤ daysInMonth y m then some (y, m, d) else none
      | none => none
    | _ => none
  else none

/-- `datetime.datetime.strptime(s, "%B %d %Y")`. -/
def strptime_B_d_Y (s : String) : Option (Nat × Nat × Nat) :=
  strptimeThree s.toList fun t1 t2 t3 =>
    match parseMonth t1, parseDay t2, parseYear t3 with
    | some m, some d, some y => some (y, m, d)
    | _, _, _ => none

/-- `datetime.datetime.strptime(s, "%d %B %Y")`. -/
def strptime_d_B_Y (s : String) : Option (Nat × Nat × Nat) :=
  strptimeThree s.toList fun t1 t2 t3 =>
    match parseDay t1, parseMonth t2, parseYear t3 with
    | some d, some m, some y => some (y, m, d)
    | _, _, _ => none

/-- `s.replace(",", "")`. -/
def removeCommas (s : String) : String :=
  String.mk (s.toList.filter fun c => c ≠ ',')

/-- The date normalization of `scrape_unjobs_org` (`job_scraper.py` lines
330-360): relative "N days ago" first, then `"%B %d %Y"` on the
comma-stripped string, then `"%d %B %Y"`, defaulting to today.  The input
is `none` when the date element is absent from the card. -/
def unjobs_normalize_date (s : Option String) : NormalizedDate :=
  match s with
  | none => .todayMinus 0
  | some str =>
    match searchDaysAgo str.toList with
    | some n => .todayMinus n
    | none =>
      match strptime_B_d_Y (removeCommas str) with
      | some (y, m, d) => .onDate y m d
      | none =>
        match strptime_d_B_Y str with
        | some (y, m, d) => .onDate y m d
        | none => .todayMinus 0

/-- `re.match(r"(\d{1,2}\s+\w+\s+\d{4})", s)`: the captured leading
"day month-word year" segment, or `none`. -/
def leadingDMY (s : List Char) : Option (List Char) :=
  let ds := s.takeWhile Char.isDigit
  if ds = [] || decide (ds.length > 2) then none
  else
    let r1 := s.drop ds.length
    let ws1 := r1.takeWhile isWS
    if ws1 = [] then none
    else
      let r2 := r1.drop ws1.length
      let w := r2.takeWhile isWordChar
      if w = [] then none
      else
        let r3 := r2.drop w.length
        let ws2 := r3.takeWhile isWS
        if ws2 = [] then none
        else
          let y4 := (r3.drop ws2.length).take 4
          if y4.length = 4 && y4.all Char.isDigit then
            some (ds ++ ws1 ++ w ++ ws2 ++ y4)
          else none

/-- The date normalization of `scrape_careers_un_org` (`job_scraper.py`
lines 457-480): take the leading "D Month YYYY" of the posting-period
range and parse it with `"%d %B %Y"`, defaulting to today. -/
def careers_normalize_date (s : Option String) : NormalizedDate :=
  match s with
  | none => .todayMinus 0
  | some str =>
    match leadingDMY str.toList with
    | none => .todayMinus 0
    | some cap =>
      match strptime_d_B_Y (String.mk cap) with
      | some (y, m, d) => .onDate y m d
      | none => .todayMinus 0

/-! ## Keyword extraction (`resume_parser.py` lines 10-39, vocabularies
from `config.py` lines 26-48) -/

/-- `DEFAULT_SKILLS` from `config.py`. -/
def DEFAULT_SKILLS : List String :=
  ["python", "django", "flask", "aws", "docker", "kubernetes", "sql",
   "rest api", "microservices", "git", "linux", "cloud", "api design"]

/-- `DEFAULT_ROLES` from `config.py`. -/
def DEFAULT_ROLES : List String :=
  ["software engineer", "backend developer", "software developer",
   "devops engineer", "cloud engineer"]

/-- `DEFAULT_PREFERENCES` from `config.py`. -/
def DEFAULT_PREFERENCES : List String :=
  ["remote", "international", "ngo", "non-profit", "worldwide"]

/-- The resume source as `parse_resume_keywords` can observe it: the path
does not exist, `extract_text` raises, or text is extracted. -/
inductive ResumeSource where
  | missing
  | unreadable
  | text (t : String)

/-- `parse_resume_keywords` from `resume_parser.py` lines 10-39.  The
Python function returns the empty dict `{}` on a missing or unreadable
file, modelled as `none`.  (`list(set(...))` in the source scrambles the
order nondeterministically; this embedding keeps vocabulary order, which
has the same contents.) -/
def parse_resume_keywords (src : ResumeSource) : Option ResumeKeywords :=
  match src with
  | .missing => none
  | .unreadable => none
  | .text t =>
    let tl := pyLower t
    some
      { skills := DEFAULT_SKILLS.filter fun s => strContains tl s
        roles := DEFAULT_ROLES.filter fun r => strContains tl r
        preferences := DEFAULT_PREFERENCES }

/-! ## Selenium driver lifecycle (`main.py` lines 179-186 and 226-229)

`main` wraps only the driver *initialization* in `try/except`; the body
between initialization and the final `if driver: driver.quit()` has no
`try/finally`, so an exception raised in the body propagates out of
`main` without reaching the quit call.  The run is abstracted by three
booleans: whether the resume parsed (`main` returns early before driver
initialization otherwise), whether `get_selenium_driver` succeeded, and
whether the body (scraping/filtering/saving/notification) raised. -/

inductive RunResult where
  | finished (quitCalled : Bool)
  | crashed (quitCalled : Bool)
deriving DecidableEq

/-- Whether `driver.quit()` ran during the run. -/
def quit_called : RunResult → Bool
  | .finished q => q
  | .crashed q => q

/-- Control-flow skeleton of `main` (`main.py` lines 157-233) restricted
to the driver lifecycle. -/
def main_run (resumeOk driverInitOk bodyExc : Bool) : RunResult :=
  if !resumeOk then .finished false
  else if bodyExc then .crashed false
  else .finished driverInitOk

/-! ## unjobs.org adapter records (`job_scraper.py` lines 307-377) -/

/-- The constant description stored by `scrape_unjobs_org`
(`job_scraper.py` line 371). -/
def PLACEHOLDER_DESC : String :=
  "Aggregator listing - refer to external URL for full details."

/-- One unjobs.org search-result card, abstracted to the fields the
adapter reads from it (`none` for an absent element). -/
structure UnjobsCard where
  title : Option String
  vacancyUrl : Option String
  company : Option String
  location : Option String
  dateStr : Option String

/-- The record `scrape_unjobs_org` appends for one card (`job_scraper.py`
lines 307-374).  `resolveApplyUrl` abstracts `get_unjobs_application_url`
(a network fetch) and `renderDate` the `datetime` backend's `isoformat`. -/
def unjobs_record (resolveApplyUrl : String → String)
    (renderDate : NormalizedDate → String) (card : UnjobsCard) : JobData :=
  { title := some (card.title.getD "N/A")
    company := some (card.company.getD "N/A")
    location := some (card.location.getD "N/A")
    url := some (resolveApplyUrl (card.vacancyUrl.getD "N/A"))
    description := some PLACEHOLDER_DESC
    date_posted := some (renderDate (unjobs_normalize_date card.dateStr)) }

/-- The full record list of one `scrape_unjobs_org` run: `fetchOk = false`
models a failed listing fetch (empty result), a `none` card models a card
whose parsing raised and was skipped by the per-card `except`. -/
def scrape_unjobs_org_records (fetchOk : Bool) (resolveApplyUrl : String → String)
    (renderDate : NormalizedDate → String) (cards : List (Option UnjobsCard)) :
    List JobData :=
  if fetchOk then
    cards.filterMap fun oc => oc.map (unjobs_record resolveApplyUrl renderDate)
  else []

/-- The dedup test of `main.py` line 204 applied to a saved record's
`url` field. -/
def urlSeenS (existing : List String) (r : ScoredJob) : Bool :=
  match r.url with
  | some u => existing.contains u
  | none => false

/-- Erase the two clock-derived fields of an accepted record
(`date_found`, stamped from `datetime.datetime.now()`, and the
`date_posted` default stamped from `datetime.date.today()`). -/
def scrubClock (r : ScoredJob) : ScoredJob :=
  { r with date_found := "", date_posted := "" }

/-- Whether a normalized date is a nontrivial relative date ("current
date minus at least one day"). -/
def shiftsDate : NormalizedDate → Bool
  | .todayMinus (_ + 1) => true
  | _ => false

/-! # Theorems -/

theorem pyTake_length_le (n : Nat) (s : String) : (pyTake n s).length ≤ n := by
  simp only [pyTake, String.length, List.length_take]
  exact min_le_left _ _

theorem is_remote_eq_spec (j : JobData) : is_remote j = spec_is_remote j := by
  simp only [is_remote, spec_is_remote]
  cases strContains (locationL j) "remote" <;>
    cases strContains (titleL j) "work from home" <;>
      cases strContains (locationL j) "worldwide" <;>
        cases strContains (locationL j) "home office" <;> rfl

theorem is_international_eq_spec (j : JobData) :
    is_international_company j = spec_is_international j := by
  simp only [is_international_company, spec_is_international, List.any_cons,
    List.any_nil, Bool.or_false, Bool.or_assoc]

theorem skills_count_eq_spec (kw : ResumeKeywords) (j : JobData)
    (h : kw.skills.Nodup) :
    spec_distinct_skill_count kw j = skills_match_count kw j := by
  unfold spec_distinct_skill_count skills_match_count
  rw [List.Nodup.dedup (h.filter _)]
  congr 1
  apply List.filter_congr
  intro a _
  exact Bool.or_comm _ _

theorem is_relevant_eq_spec (thr : Nat) (kw : ResumeKeywords) (j : JobData)
    (h : kw.skills.Nodup) : is_relevant thr kw j = spec_accepts thr kw j := by
  unfold is_relevant spec_accepts
  rw [is_remote_eq_spec, is_international_eq_spec, skills_count_eq_spec kw j h]
  rfl

theorem filter_isSome_eq_is_relevant (now today : String) (thr : Nat)
    (j : JobData) (kw : ResumeKeywords) :
    (filter_and_process_job now today thr j kw).isSome = is_relevant thr kw j := by
  unfold filter_and_process_job
  split <;> simp_all

/-- C1: the Relevance Filter accepts (returns a scored record rather than
`none`) exactly when the job is remote, some resume role term matches, the
number of distinct matching resume skill terms reaches the configured
threshold, and the job is international or NGO (all predicates as the
claim spells them out); moreover the spec's fixed example is accepted and
its non-remote variant is rejected. -/
theorem C1_accept_iff :
    (∀ now today thr j kw, kw.skills.Nodup →
        (filter_and_process_job now today thr j kw).isSome = spec_accepts thr kw j)
    ∧ (filter_and_process_job "2024-01-03T00:00:00" "2024-01-03" 2 exJob exKw).isSome
        = true
    ∧ filter_and_process_job "2024-01-03T00:00:00" "2024-01-03" 2 exJobNY exKw
        = none := by
  refine ⟨fun now today thr j kw h => ?_, by decide, by decide⟩
  rw [filter_isSome_eq_is_relevant, is_relevant_eq_spec thr kw j h]

/-- Witness for C1 at the fixed example. -/
theorem C1_accept_iff_witness :
    (filter_and_process_job "2024-01-03T00:00:00" "2024-01-03" 2 exJob exKw).isSome
      = spec_accepts 2 exKw exJob :=
  C1_accept_iff.1 "2024-01-03T00:00:00" "2024-01-03" 2 exJob exKw (by decide)

/-- C2: on acceptance the relevance score is
`skills_match_count + 2·[is_ngo] + 1·[is_international]` (a natural
number, hence non-negative); on rejection the filter returns `none`, never
a zero-scored record; a job with three matched skills that is NGO and not
international scores 5, and one that is international and not NGO scores
4. -/
theorem C2_score_formula :
    (∀ now today thr j kw,
        ((filter_and_process_job now today thr j kw).map fun r => r.relevance_score)
          = if is_relevant thr kw j then
              some (skills_match_count kw j + (if is_ngo j then 2 else 0)
                + (if is_international_company j then 1 else 0))
            else none)
    ∧ (∀ now today thr j kw,
        (filter_and_process_job now today thr j kw).isSome = is_relevant thr kw j)
    ∧ ((filter_and_process_job "2024-01-03T00:00:00" "2024-01-03" 2 exNgoJob
          exKw).map fun r => r.relevance_score) = some 5
    ∧ (is_ngo exNgoJob, is_international_company exNgoJob,
        skills_match_count exKw exNgoJob) = (true, false, 3)
    ∧ ((filter_and_process_job "2024-01-03T00:00:00" "2024-01-03" 2 exIntlJob
          exKw).map fun r => r.relevance_score) = some 4
    ∧ (is_ngo exIntlJob, is_international_company exIntlJob,
        skills_match_count exKw exIntlJob) = (false, true, 3) := by
  refine ⟨fun now today thr j kw => ?_, filter_isSome_eq_is_relevant,
    by decide, by decide, by decide, by decide⟩
  unfold filter_and_process_job
  split <;> simp_all

/-- C3: both description-extraction functions return text of length at
most 5000 on every input (all successful extraction paths truncate last,
and every sentinel is far shorter than the bound). -/
theorem C3_truncation_bound :
    (∀ u oc, (fetch_full_description_requests u oc).length ≤ 5000)
    ∧ (∀ hd u oc, (fetch_full_description_selenium hd u oc).length ≤ 5000) := by
  constructor
  · intro u oc
    unfold fetch_full_description_requests
    split
    · decide
    · cases oc with
      | none => decide
      | some page =>
        cases h : page.siteSpecific with
        | some t => simp only [h]; exact pyTake_length_le _ _
        | none => simp only [h]; exact pyTake_length_le _ _
  · intro hd u oc
    unfold fetch_full_description_selenium
    split
    · decide
    · split
      · decide
      · cases oc with
        | none => decide
        | some page => exact pyTake_length_le _ _

/-- C4 counterexample: `scrape_all_jobs` has no exception handler, so an
exception escaping the Wellfound adapter propagates and the combined
output contains no records at all — not, as claimed, the records of the
other adapters. -/
theorem C4_counterexample :
    scrape_all_jobs (Except.ok [exJob]) (Except.ok [exNgoJob])
      (Except.error "boom") (Except.ok []) = Except.error "boom" := rfl

/-- C4 amended: the aggregator invokes its four adapters (unjobs.org,
careers.un.org, Wellfound, the LinkedIn stub) in that fixed order and
returns the concatenation of their results when no adapter raises; an
exception escaping an adapter propagates out of the aggregator (isolation
is implemented inside each adapter, not at the aggregator boundary). -/
theorem C4_aggregator_concat :
    (∀ a b c d : List JobData,
        scrape_all_jobs (Except.ok a) (Except.ok b) (Except.ok c) (Except.ok d)
          = Except.ok (a ++ b ++ c ++ d))
    ∧ (∀ (a b d : List JobData) (e : String),
        scrape_all_jobs (Except.ok a) (Except.ok b) (Except.error e) (Except.ok d)
          = Except.error e) :=
  ⟨fun _ _ _ _ => rfl, fun _ _ _ _ => rfl⟩

/-- C6 counterexample: the filter reads the clock
(`datetime.datetime.now()` for `date_found`), so two calls with the same
job record and keyword set made at different times return different
records. -/
theorem C6_counterexample :
    (filter_and_process_job "2024-01-03T10:00:00" "2024-01-03" 2 exJob exKw
      == filter_and_process_job "2024-01-04T10:00:00" "2024-01-04" 2 exJob exKw)
      = false := by decide

/-- C6 amended: the filter is deterministic in `(job, keywords)` except
for the clock-derived fields — the acceptance decision and every field
other than `date_found` (always clock-stamped) and the `date_posted`
default (clock-stamped only when the record carries no date) depend only
on the job record, the keyword set and the threshold. -/
theorem C6_deterministic_up_to_clock :
    ∀ now₁ today₁ now₂ today₂ thr j kw,
      (filter_and_process_job now₁ today₁ thr j kw).isSome
          = (filter_and_process_job now₂ today₂ thr j kw).isSome
        ∧ ((filter_and_process_job now₁ today₁ thr j kw).map scrubClock)
          = ((filter_and_process_job now₂ today₂ thr j kw).map scrubClock) := by
  intro now₁ today₁ now₂ today₂ thr j kw
  unfold filter_and_process_job
  split <;> simp [scrubClock]

theorem filter_keeps_url (now today : String) (thr : Nat) (j : JobData)
    (kw : ResumeKeywords) (r : ScoredJob)
    (h : filter_and_process_job now today thr j kw = some r) : r.url = j.url := by
  unfold filter_and_process_job at h
  split at h
  · simp only [Option.some.injEq] at h
    subst h
    rfl
  · simp at h

theorem urlSeenS_eq (existing : List String) (r : ScoredJob) (j : JobData)
    (h : r.url = j.url) : urlSeenS existing r = urlSeen existing j := by
  unfold urlSeenS urlSeen
  rw [h]

theorem run_filter_loop_props (now today : String) (thr : Nat)
    (kw : ResumeKeywords) (existing : List String) (jobs : List JobData) :
    ((run_filter_loop now today thr kw existing jobs).1.all fun j =>
        !(urlSeen existing j)) = true
    ∧ List.Sublist (run_filter_loop now today thr kw existing jobs).1 jobs
    ∧ ((run_filter_loop now today thr kw existing jobs).2.all fun r =>
        !(urlSeenS existing r)) = true := by
  induction jobs with
  | nil => exact ⟨rfl, List.Sublist.refl _, rfl⟩
  | cons j rest ih =>
    obtain ⟨ih1, ih2, ih3⟩ := ih
    cases hseen : urlSeen existing j with
    | true =>
      refine ⟨?_, ?_, ?_⟩ <;> simp only [run_filter_loop, hseen, if_true]
      · exact ih1
      · exact ih2.cons j
      · exact ih3
    | false =>
      cases hf : filter_and_process_job now today thr j kw with
      | none =>
        refine ⟨?_, ?_, ?_⟩ <;>
          simp only [run_filter_loop, hseen, if_false, hf, Bool.false_eq_true,
            List.all_cons]
        · simp [hseen, ih1]
        · exact ih2.cons₂ j
        · exact ih3
      | some r =>
        refine ⟨?_, ?_, ?_⟩ <;>
          simp only [run_filter_loop, hseen, if_false, hf, Bool.false_eq_true,
            List.all_cons]
        · simp [hseen, ih1]
        · exact ih2.cons₂ j
        · simp [urlSeenS_eq existing r j (filter_keeps_url now today thr j kw r hf),
            hseen, ih3]

/-- C5: a job whose url is already in the store's URL set at the start of
the run never reaches the Relevance Filter (the jobs that do reach it form
a duplicate-free-by-url-with-the-store subsequence of the scraped list,
each processed at most once), no record whose url was already stored is
ever passed to the store insert, and the store insert returns `false`
rather than raising on a duplicate-key violation with url as the unique
key. -/
theorem C5_dedup_idempotence :
    (∀ now today thr kw existing jobs,
        ((run_filter_loop now today thr kw existing jobs).1.all fun j =>
            !(urlSeen existing j)) = true
        ∧ List.Sublist (run_filter_loop now today thr kw existing jobs).1 jobs
        ∧ ((run_filter_loop now today thr kw existing jobs).2.all fun r =>
            !(urlSeenS existing r)) = true)
    ∧ (∀ db job, (save_job_listing db job).1
        = !(job.url.isSome && db.contains job.url)) := by
  refine ⟨fun now today thr kw existing jobs =>
    run_filter_loop_props now today thr kw existing jobs, fun db job => ?_⟩
  unfold save_job_listing
  cases job.url with
  | none => simp
  | some u =>
    cases h : db.contains (some u) <;> simp at h <;> simp [h]

/-- C7 counterexample: the careers.un.org adapter does not implement the
claimed policy — a relative "N days ago" string and a "Month D Year"
string both fall through to the current-date default instead of being
parsed. -/
theorem C7_counterexample :
    (careers_normalize_date (some "5 days ago") == NormalizedDate.todayMinus 5)
        = false
    ∧ (careers_normalize_date (some "July 24 2023")
        == NormalizedDate.onDate 2023 7 24) = false
    ∧ careers_normalize_date (some "5 days ago") = NormalizedDate.todayMinus 0
    ∧ careers_normalize_date (some "July 24 2023") = NormalizedDate.todayMinus 0 := by
  decide

/-- C7 amended: the unjobs.org adapter parses "N days ago" as the current
date minus N days, then tries "Month D Year" (commas removed) and
"D Month Year" in that order, defaulting to the current date; the
careers.un.org adapter only parses a leading "D Month Year" (the start of
the posting-period range), defaulting to the current date otherwise — in
particular it never produces a shifted relative date; neither parser
raises (both are total, defaulting on unrecognized formats). -/
theorem C7_date_normalization :
    unjobs_normalize_date (some "7 days ago") = NormalizedDate.todayMinus 7
    ∧ unjobs_normalize_date (some "1 day ago") = NormalizedDate.todayMinus 1
    ∧ unjobs_normalize_date (some "July 4, 2021") = NormalizedDate.onDate 2021 7 4
    ∧ unjobs_normalize_date (some "4 July 2021") = NormalizedDate.onDate 2021 7 4
    ∧ unjobs_normalize_date (some "opening soon") = NormalizedDate.todayMinus 0
    ∧ unjobs_normalize_date none = NormalizedDate.todayMinus 0
    ∧ careers_normalize_date (some "24 July 2023 - 23 August 2023")
        = NormalizedDate.onDate 2023 7 24
    ∧ careers_normalize_date none = NormalizedDate.todayMinus 0
    ∧ (∀ s, shiftsDate (careers_normalize_date s) = false) := by
  refine ⟨by decide, by decide, by decide, by decide, by decide, by decide,
    by decide, by decide, fun s => ?_⟩
  unfold careers_normalize_date
  split
  · rfl
  · split
    · rfl
    · split
      · rfl
      · rfl

/-- C8: the Keyword Extractor returns exactly the subset of each fixed
vocabulary whose terms occur as substrings of the case-folded resume
text, always returns the full static default preference list, and returns
the empty sentinel (rather than raising) when the resume source is
missing or unreadable. -/
theorem C8_keyword_extractor :
    parse_resume_keywords ResumeSource.missing = none
    ∧ parse_resume_keywords ResumeSource.unreadable = none
    ∧ ∀ t, ∃ kw, parse_resume_keywords (ResumeSource.text t) = some kw
        ∧ kw.preferences = DEFAULT_PREFERENCES
        ∧ (∀ s, s ∈ kw.skills ↔ s ∈ DEFAULT_SKILLS
            ∧ strContains (pyLower t) s = true)
        ∧ (∀ r, r ∈ kw.roles ↔ r ∈ DEFAULT_ROLES
            ∧ strContains (pyLower t) r = true) := by
  refine ⟨rfl, rfl, fun t => ⟨_, rfl, rfl, fun s => ?_, fun r => ?_⟩⟩
  · simp [List.mem_filter]
  · simp [List.mem_filter]

/-- C9 counterexample: `main` has no `try/finally` around the scraping
body, so a run in which the driver initializes and the body then raises
ends without `driver.quit()` being called. -/
theorem C9_counterexample :
    main_run true true true = RunResult.crashed false
    ∧ quit_called (main_run true true true) = false := by decide

/-- C9 amended: `driver.quit()` runs exactly when the run completes
normally with an initialized driver — it is reached on the normal path
(and skipped harmlessly when initialization failed), but an exception
raised after initialization propagates past the quit call. -/
theorem C9_driver_release :
    ∀ resumeOk driverInitOk bodyExc,
      quit_called (main_run resumeOk driverInitOk bodyExc)
        = (resumeOk && driverInitOk && !bodyExc) := by decide

/-- C10: every record emitted by the unjobs.org adapter carries the
constant placeholder description, so the description text the Relevance
Filter evaluates its predicates against (`descL`) is the case-folded
placeholder, never the posting's real text. -/
theorem C10_unjobs_placeholder :
    ∀ fetchOk resolve renderDate cards,
      ((scrape_unjobs_org_records fetchOk resolve renderDate cards).all fun j =>
          j.description == some PLACEHOLDER_DESC) = true
      ∧ ((scrape_unjobs_org_records fetchOk resolve renderDate cards).all fun j =>
          descL j == pyLower PLACEHOLDER_DESC) = true := by
  intro fetchOk resolve renderDate cards
  unfold scrape_unjobs_org_records
  cases fetchOk with
  | false => exact ⟨rfl, rfl⟩
  | true =>
    constructor <;>
    · simp only [if_true, List.all_eq_true, List.mem_filterMap]
      rintro j ⟨oc, _, hmap⟩
      cases oc with
      | none => simp at hmap
      | some card =>
        simp only [Option.map_some', Option.some.injEq] at hmap
        subst hmap
        simp [unjobs_record, descL]
